import Mathlib

/- A Lean model of graphdsl.py: the Edge named tuple, the FSMShape hierarchy
   (FSMCircle, FSMRect), the Diagram base class (edge normalization, file
   output), the FSM class (validation in post-init, TikZ rendering) and the
   Digraph class (DOT serialization, delegation to the dot2tex collaborator).

   Modelling conventions:
   - Python ints are Int; Python floats are real numbers (the angle/trig
     computations of the circular layout), with the 2-decimal coordinate
     formatter kept abstract except on exact integer inputs;
   - Python exceptions are an explicit PyError value returned in Except;
   - Python sets are lists deduplicated at construction (iteration order of a
     Python set is unspecified; the list fixes one stable order);
   - the file system is an explicit event trace (open-for-write, write). -/

namespace GraphDSL

/-- Python exceptions raised by the code under study. -/
inductive PyError
  | valueError (msg : String)
  | nameError (name : String)
  | notImplementedError (msg : String)
  | attributeError (name : String)
  | zeroDivisionError
  deriving DecidableEq, Repr

/-- A Python value usable as a node identifier: an int or a str
    (`src: Union[int, str]` in graphdsl.py). -/
inductive PyVal
  | int (n : ℤ)
  | str (s : String)
  deriving DecidableEq, Repr

/-- Python str() of a node identifier, as interpolated by f-strings. -/
def pyValStr : PyVal → String
  | .int n => toString n
  | .str s => s

/-- Python str() of an Optional[str], as interpolated by f-strings:
    None prints as the four characters None. -/
def pyOptStr : Option String → String
  | none => "None"
  | some s => s

/-- Python `label or ""` (None and the empty string are both falsy). -/
def pyLabelOr : Option String → String
  | none => ""
  | some s => s

/-- Model of `Edge(NamedTuple)` with fields src, dst, label (graphdsl.py lines 13-17).
    A NamedTuple with three fields always has len 3. -/
structure Edge (α : Type) where
  src : α
  dst : α
  label : Option String
  deriving DecidableEq, Repr

/-- A raw edge as passed to a Diagram constructor: a tuple-like value of
    length 2 (no label), length 3 (with label), or some other arity
    (whose content is irrelevant: only its length is ever inspected). -/
inductive RawEdge (α : Type)
  | pair (src dst : α)
  | triple (src dst : α) (label : Option String)
  | badArity (n : ℕ)
  deriving DecidableEq, Repr

/-- Whether a raw edge has an arity other than 2 or 3. -/
def isBadArity {α : Type} : RawEdge α → Bool
  | .badArity _ => true
  | _ => false

/-- One step of `Diagram.__post_init__` (lines 75-85): a 2-tuple becomes an
    Edge with label None, a 3-tuple keeps its label, anything else raises
    ValueError. -/
def normalizeEdge {α : Type} : RawEdge α → Except PyError (Edge α)
  | .pair s d => .ok ⟨s, d, none⟩
  | .triple s d l => .ok ⟨s, d, l⟩
  | .badArity _ => .error (.valueError "Diagram edges should have length 2 or 3")

/-- The normalization loop of `Diagram.__post_init__`: left to right over the
    provided edges, failing at the first edge of bad arity. -/
def normalizeEdges {α : Type} : List (RawEdge α) → Except PyError (List (Edge α))
  | [] => .ok []
  | e :: es =>
    match normalizeEdge e with
    | .error err => .error err
    | .ok e' =>
      match normalizeEdges es with
      | .error err => .error err
      | .ok es' => .ok (e' :: es')

/-- Total version of normalization for raw edges of good arity (the badArity
    value is junk, never reached under the good-arity hypothesis). -/
def normOk {α : Type} [Inhabited α] : RawEdge α → Edge α
  | .pair s d => ⟨s, d, none⟩
  | .triple s d l => ⟨s, d, l⟩
  | .badArity _ => ⟨default, default, none⟩

/-- The FSMShape hierarchy: FSMCircle (radius) and FSMRect (cols, spacing)
    (graphdsl.py lines 20-50). -/
inductive FSMShape
  | circle (radius : ℤ)
  | rect (cols : ℤ) (spacing : ℤ)
  deriving DecidableEq, Repr

/-- Validation of `FSMCircle.__post_init__`: radius must be at least 0. -/
def mkFSMCircle (radius : ℤ) : Except PyError FSMShape :=
  if radius < 0 then
    .error (.valueError ("FSMCircle radius must be at least 0, not " ++ toString radius))
  else .ok (.circle radius)

/-- Validation of `FSMRect.__post_init__`: cols and spacing must be at least 1. -/
def mkFSMRect (cols spacing : ℤ) : Except PyError FSMShape :=
  if cols < 1 then
    .error (.valueError ("FSMRect columns must be at least 1, not " ++ toString cols))
  else if spacing < 1 then
    .error (.valueError ("FSMRect spacing must be at least 1, not " ++ toString spacing))
  else .ok (.rect cols spacing)

/-- The invariant every successfully constructed FSMShape satisfies. -/
def shapeOK : FSMShape → Bool
  | .circle r => decide (0 ≤ r)
  | .rect c s => decide (1 ≤ c) && decide (1 ≤ s)

/-- The FSM dataclass: edges, state_labels, q_0, q_accept (lines 114-120).
    FSM node identifiers are integers. -/
structure FSM where
  edges : List (Edge ℤ)
  state_labels : List String
  q_0 : ℤ
  q_accept : List ℤ
  deriving DecidableEq, Repr

/-- Error message of the start-state check (line 127). -/
def startStateMsg (n : ℕ) (q0 : ℤ) : String :=
  "Got " ++ toString n ++ " labels, but start state is " ++ toString q0 ++ "."

/-- Error message of the accept-state check (line 130). -/
def acceptStateMsg (n : ℕ) (q : ℤ) : String :=
  "Got " ++ toString n ++ " labels, but an accept state is " ++ toString q ++ "."

/-- Error message of the edge check (line 133).  Note that it interpolates
    the variable q: the loop variable left over from the accept-state loop,
    not the offending edge endpoint. -/
def edgeMsg (n : ℕ) (q : ℤ) : String :=
  "Got " ++ toString n ++ " labels, but an edge contains " ++ toString q ++ "."

/-- Model of `FSM.__post_init__` (lines 122-133): normalize the edges (the base-class
    post-init), then check q_0, the accept states, and the edge endpoints
    against the number of labels, in that order.  Only upper bounds are
    checked (`q >= num_nodes`); negative indices pass every check.  When the
    edge check fails, the message interpolates q, the variable left over from
    the accept-state loop; if q_accept was empty that variable was never
    bound and Python raises NameError instead. -/
def mkFSM (edges : List (RawEdge ℤ)) (labels : List String) (q0 : ℤ)
    (accepts : List ℤ) : Except PyError FSM :=
  match normalizeEdges edges with
  | .error e => .error e
  | .ok es0 =>
    let es := es0.dedup
    let N : ℤ := labels.length
    if N ≤ q0 then .error (.valueError (startStateMsg labels.length q0))
    else
      match accepts.find? (fun q => decide (N ≤ q)) with
      | some q => .error (.valueError (acceptStateMsg labels.length q))
      | none =>
        match es.find? (fun e => decide (N ≤ e.src) || decide (N ≤ e.dst)) with
        | some _ =>
          .error (match accepts.getLast? with
            | none => .nameError "q"
            | some q => .valueError (edgeMsg labels.length q))
        | none => .ok ⟨es, labels, q0, accepts⟩

/-- The bound the spec claims for one raw edge of good arity: both endpoints
    below the number of labels (trivial for a bad-arity tuple, which has no
    endpoints). -/
def RawEdge.endpointsLT : RawEdge ℤ → ℤ → Prop
  | .pair s d, N => s < N ∧ d < N
  | .triple s d _, N => s < N ∧ d < N
  | .badArity _, _ => True

instance (e : RawEdge ℤ) (N : ℤ) : Decidable (e.endpointsLT N) :=
  match e with
  | .pair s d => inferInstanceAs (Decidable (s < N ∧ d < N))
  | .triple s d _ => inferInstanceAs (Decidable (s < N ∧ d < N))
  | .badArity _ => inferInstanceAs (Decidable True)

/-- Whether an Except is a success. -/
def exOk {ε α : Type} : Except ε α → Bool
  | .ok _ => true
  | .error _ => false

/-- The Digraph dataclass (lines 192-195): just a set of edges over arbitrary
    int-or-str node identifiers. -/
structure Digraph where
  edges : List (Edge PyVal)
  deriving DecidableEq, Repr

/-- Digraph construction: the base-class `__post_init__` normalization. -/
def mkDigraph (raw : List (RawEdge PyVal)) : Except PyError Digraph :=
  match normalizeEdges raw with
  | .error e => .error e
  | .ok es => .ok ⟨es.dedup⟩

/-- Model of `Digraph.edge_to_dot` (lines 197-201).  The guard `len(edge) == 3` in the
    source is always true: every normalized edge is a three-field Edge
    NamedTuple, so the label attribute is always emitted, and an absent label
    (None) is interpolated by the f-string as the text None. -/
def Digraph.edge_to_dot (edge : Edge PyVal) : String :=
  pyValStr edge.src ++ " -> " ++ pyValStr edge.dst
    ++ (" [label=\"" ++ pyOptStr edge.label ++ "\"]")

/-- Model of `Digraph.to_dot` (lines 203-214): empty string when there are no edges,
    otherwise the DOT document built line by line. -/
def Digraph.to_dot (g : Digraph) : String :=
  if g.edges.isEmpty then ""
  else
    "digraph \x7b\n" ++ "    node [texmode=\"math\"];\n"
      ++ String.join (g.edges.map (fun e => "    " ++ Digraph.edge_to_dot e ++ ";\n"))
      ++ "\x7d"

/-- Model of `Digraph.to_tex` (lines 216-222): any supplied shape is truthy and raises
    ValueError; otherwise the DOT text is passed to the external dot2tex
    collaborator (modelled as the function argument conv) and its result —
    success or failure — is returned unchanged. -/
def Digraph.to_tex (conv : String → Except PyError String) (g : Digraph)
    (shape : Option FSMShape) : Except PyError String :=
  match shape with
  | some _ => .error (.valueError "Cannot display a digraph using a FSMShape.")
  | none => conv (Digraph.to_dot g)

/-- One emitted line of the tikzpicture body of `FSM.to_tex`.  Circular-layout
    node coordinates are real numbers (the source computes them with floating
    point trigonometry); rectangular-layout coordinates are integers, as in
    the source. -/
inductive TexLine
  | nodeC (i : ℕ) (x y : ℝ) (options : String) (label : String)
  | nodeR (i : ℕ) (x y : ℤ) (options : String) (label : String)
  | startNodeC (x y : ℝ)
  | startNodeR (x y : ℤ)
  | startArrow (i : ℕ)
  | straight (src dst : ℤ) (label : String)
  | selfLoop (src : ℤ) (label : String)

/-- Effective radius of the circular layout (line 143): Python
    `shape.radius or 10 * num_nodes` keeps a truthy (nonzero) radius and
    falls back to 10 times the node count when the radius is 0. -/
def effRadius (radius : ℤ) (numNodes : ℕ) : ℤ :=
  if radius ≠ 0 then radius else 10 * (numNodes : ℤ)

/-- x coordinate of circular-layout node i (lines 146-147):
    radius * sin(i * 2 * pi / num_nodes). -/
noncomputable def circleX (radius : ℤ) (numNodes : ℕ) (i : ℕ) : ℝ :=
  (effRadius radius numNodes : ℝ) *
    Real.sin ((i : ℝ) * 2 * Real.pi / (numNodes : ℝ))

/-- y coordinate of circular-layout node i (line 149):
    radius * cos(i * 2 * pi / num_nodes). -/
noncomputable def circleY (radius : ℤ) (numNodes : ℕ) (i : ℕ) : ℝ :=
  (effRadius radius numNodes : ℝ) *
    Real.cos ((i : ℝ) * 2 * Real.pi / (numNodes : ℝ))

/-- Node options (lines 152, 165): accept states get a double border. -/
def nodeOptions (accepts : List ℤ) (i : ℕ) : String :=
  if (i : ℤ) ∈ accepts then "draw,circle,double" else "draw,circle"

/-- The node declaration emitted for circular-layout node i (line 153). -/
noncomputable def circleNode (labels : List String) (accepts : List ℤ) (r : ℤ)
    (i : ℕ) (lbl : String) : TexLine :=
  .nodeC i (circleX r labels.length i) (circleY r labels.length i)
    (nodeOptions accepts i) lbl

/-- The start marker and arrow emitted at circular-layout node i
    (lines 156-159): the marker sits at (x, y + radius // 2). -/
noncomputable def circleStart (labels : List String) (r : ℤ) (i : ℕ) :
    List TexLine :=
  [.startNodeC (circleX r labels.length i)
      (circleY r labels.length i + ((effRadius r labels.length).fdiv 2 : ℤ)),
   .startArrow i]

/-- The node declaration emitted for rectangular-layout node i (lines 163-166):
    x = (i % cols) * spacing, y = -((i // cols) * spacing).  Python % and //
    are floor-convention, hence Int.fmod and Int.fdiv. -/
def rectNode (accepts : List ℤ) (cols spacing : ℤ) (i : ℕ) (lbl : String) :
    TexLine :=
  .nodeR i (((i : ℤ).fmod cols) * spacing) (-(((i : ℤ).fdiv cols) * spacing))
    (nodeOptions accepts i) lbl

/-- The start marker and arrow emitted at rectangular-layout node i
    (lines 169-172): the marker sits at (x, y + spacing // 2). -/
def rectStart (cols spacing : ℤ) (i : ℕ) : List TexLine :=
  [.startNodeR (((i : ℤ).fmod cols) * spacing)
      (-(((i : ℤ).fdiv cols) * spacing) + spacing.fdiv 2),
   .startArrow i]

/-- The `for i, label in enumerate(self.state_labels)` loop shared by both
    layout branches (lines 144-159 and 162-172), at running index k: emit the
    node declaration, then the start marker and arrow when i == q_0. -/
def startBlockAux (node : ℕ → String → TexLine) (st : ℕ → List TexLine)
    (q0 : ℤ) : ℕ → List String → List TexLine
  | _, [] => []
  | k, l :: ls =>
    (node k l :: (if (k : ℤ) = q0 then st k else []))
      ++ startBlockAux node st q0 (k + 1) ls

/-- The node loop started at index 0. -/
def startBlock (node : ℕ → String → TexLine) (st : ℕ → List TexLine)
    (q0 : ℤ) (labels : List String) : List TexLine :=
  startBlockAux node st q0 0 labels

/-- All node-related lines of the circular layout (lines 142-159). -/
noncomputable def circleLines (labels : List String) (accepts : List ℤ)
    (q0 : ℤ) (r : ℤ) : List TexLine :=
  startBlock (circleNode labels accepts r) (circleStart labels r) q0 labels

/-- All node-related lines of the rectangular layout (lines 160-172). -/
def rectLines (labels : List String) (accepts : List ℤ) (q0 : ℤ)
    (cols spacing : ℤ) : List TexLine :=
  startBlock (rectNode accepts cols spacing) (rectStart cols spacing) q0 labels

/-- The edge loop of `FSM.to_tex` (lines 176-186): a straight connector with
    a midway label for src != dst, a self-loop above the node for src == dst;
    a missing label is replaced by the empty string (`label or ""`). -/
def edgeLine (e : Edge ℤ) : TexLine :=
  if e.src ≠ e.dst then .straight e.src e.dst (pyLabelOr e.label)
  else .selfLoop e.src (pyLabelOr e.label)

/-- Model of `FSM.to_tex` (lines 135-190), modelled as the list of emitted tikzpicture
    body lines.  A shape of an unhandled type — only None is possible here —
    raises NotImplementedError (lines 173-174).  The rectangular branch
    divides by shape.cols for every node, so cols == 0 with at least one node
    raises ZeroDivisionError in Python; validated shapes have cols >= 1. -/
noncomputable def FSM.to_tex (f : FSM) (shape : Option FSMShape) :
    Except PyError (List TexLine) :=
  match shape with
  | some (.circle r) =>
    .ok (circleLines f.state_labels f.q_accept f.q_0 r ++ f.edges.map edgeLine)
  | some (.rect cols spacing) =>
    if cols = 0 ∧ f.state_labels ≠ [] then .error .zeroDivisionError
    else .ok (rectLines f.state_labels f.q_accept f.q_0 cols spacing
      ++ f.edges.map edgeLine)
  | none =>
    .error (.notImplementedError "Unimplemented FSMShape: <class \x27NoneType\x27>")

/-- The node lines of a successful `FSM.to_tex` call. -/
noncomputable def fsmNodeLines (f : FSM) : FSMShape → List TexLine
  | .circle r => circleLines f.state_labels f.q_accept f.q_0 r
  | .rect cols spacing => rectLines f.state_labels f.q_accept f.q_0 cols spacing

/-- Renders one body line to its LaTeX text.  fmt stands for the Python
    float formatter `"{:0.2f}bp".format`; integer coordinates of the
    rectangular layout are interpolated directly as `f"{x}bp"`, except the
    start-marker y which also goes through the 2-decimal formatter. -/
def renderLine (fmt : ℝ → String) (fmtI : ℤ → String) : TexLine → String
  | .nodeC i x y options label =>
    "\\node (" ++ toString i ++ ") at (" ++ fmt x ++ "," ++ fmt y ++ ") ["
      ++ options ++ "] \x7b$" ++ label ++ "$\x7d;"
  | .nodeR i x y options label =>
    "\\node (" ++ toString i ++ ") at (" ++ toString x ++ "bp," ++ toString y
      ++ "bp) [" ++ options ++ "] \x7b$" ++ label ++ "$\x7d;"
  | .startNodeC x y =>
    "\\node (start) at (" ++ fmt x ++ ", " ++ fmt y ++ ") \x7bstart\x7d;"
  | .startNodeR x y =>
    "\\node (start) at (" ++ toString x ++ "bp, " ++ fmtI y ++ ") \x7bstart\x7d;"
  | .startArrow i =>
    "\\draw [->] (start) -- (" ++ toString i ++ ");"
  | .straight src dst label =>
    "\\draw [->] (" ++ toString src ++ ") -- (" ++ toString dst
      ++ ") node[midway] \x7b" ++ label ++ "\x7d;"
  | .selfLoop src label =>
    "\\draw (" ++ toString src ++ ") edge[loop above] node \x7b" ++ label
      ++ "\x7d (" ++ toString src ++ ");"

/-- The Python 2-decimal formatter applied to an int: "{:0.2f}bp".format(n)
    is the decimal text of n followed by ".00bp". -/
def fmtInt2bp (n : ℤ) : String := toString n ++ ".00bp"

/-- A concrete real-coordinate formatter agreeing with the Python formatter
    "\x7b:0.2f\x7dbp".format on exact integer inputs (all that node 0 of the
    circular layout produces). -/
noncomputable def intCoordFmt (x : ℝ) : String := toString ⌊x⌋ ++ ".00bp"

/-- Constant `Diagram.TEX_PREAMBLE` (lines 56-67), a fixed document header. -/
def TEX_PREAMBLE : String :=
  "\n    \\documentclass\x7bstandalone\x7d\n    \\usepackage[utf8]\x7binputenc\x7d\n    \\usepackage\x7btikz\x7d\n    \\usetikzlibrary\x7bsnakes,arrows,shapes,automata,positioning\x7d\n    \\usepackage\x7bamsmath\x7d\n    \\tikzset\x7bdouble distance=2pt\x7d\n    \\usepackage[active,tightpage]\x7bpreview\x7d\n    \\PreviewEnvironment\x7btikzpicture\x7d\n    \\setlength\\PreviewBorder\x7b0pt\x7d\n    \\begin\x7bdocument\x7d\n    "

/-- Constant `Diagram.TEX_POSTSCRIPT` (lines 69-71). -/
def TEX_POSTSCRIPT : String := "\n    \\end\x7bdocument\x7d\n    "

/-- The whole document string of `FSM.to_tex`: preamble, tikzpicture
    environment with one emitted line per body line, postscript. -/
noncomputable def texDocOf (fmt : ℝ → String) (fmtI : ℤ → String)
    (lines : List TexLine) : String :=
  TEX_PREAMBLE ++ "\\begin\x7btikzpicture\x7d[>=stealth\x27]" ++ "\n"
    ++ String.join (lines.map (fun l => renderLine fmt fmtI l ++ "\n"))
    ++ "\\end\x7btikzpicture\x7d\n" ++ TEX_POSTSCRIPT

/-- Model of `FSM.to_tex` as a document string. -/
noncomputable def FSM.to_tex_str (fmt : ℝ → String) (fmtI : ℤ → String)
    (f : FSM) (shape : Option FSMShape) : Except PyError String :=
  (FSM.to_tex f shape).map (texDocOf fmt fmtI)

/-- A diagram value, as dispatched on by `Diagram.__rshift__`. -/
inductive DiagramVal
  | fsm (f : FSM)
  | digraph (g : Digraph)

/-- Truth of `hasattr(self, "to_dot")`: defined on Digraph only. -/
def hasattrToDot : DiagramVal → Bool
  | .fsm _ => false
  | .digraph _ => true

/-- Model of `self.to_tex()` as called by `__rshift__` (no shape argument): an FSM
    reaches the unimplemented-shape branch with shape None; a Digraph calls
    the dot2tex collaborator on its DOT text. -/
noncomputable def diagToTex (fmt : ℝ → String) (fmtI : ℤ → String)
    (conv : String → Except PyError String) : DiagramVal → Except PyError String
  | .fsm f => FSM.to_tex_str fmt fmtI f none
  | .digraph g => Digraph.to_tex conv g none

/-- Model of `self.to_dot()` as called by `__rshift__`: an FSM has no such attribute,
    so Python raises AttributeError. -/
def diagToDot : DiagramVal → Except PyError String
  | .fsm _ => .error (.attributeError "to_dot")
  | .digraph g => .ok (Digraph.to_dot g)

/-- Python str.lower(), modelled as a character-by-character map (ASCII case
    folding, which is all the recognized extensions need). -/
def pyLower (s : String) : String := ⟨s.data.map Char.toLower⟩

/-- Python str.endswith (sub)string test, modelled on the character lists. -/
def pyEndsWith (s suffix : String) : Bool := List.isSuffixOf suffix.data s.data

/-- An observable file-system event of the output sink. -/
inductive FsEvent
  | openWrite (path : String)
  | writeStr (path : String) (content : String)
  deriving DecidableEq, Repr

/-- Model of `Diagram.__rshift__` (lines 103-111), as the trace of file-system events
    plus the exception escaping the call, if any.  The path is lowercased
    first; then `with open(other, "w")` creates or truncates the file BEFORE
    any extension dispatch happens; `hasattr(self, "to_tex")` is always true
    (the method is defined on the Diagram base class), and Python operator
    precedence groups the second condition as
    `.dot or (.gv and hasattr(self, "to_dot"))`. -/
noncomputable def rshift (fmt : ℝ → String) (fmtI : ℤ → String)
    (conv : String → Except PyError String) (d : DiagramVal) (other : String) :
    List FsEvent × Option PyError :=
  let o := pyLower other
  if pyEndsWith o ".tex" then
    match diagToTex fmt fmtI conv d with
    | .ok s => ([.openWrite o, .writeStr o s], none)
    | .error e => ([.openWrite o], some e)
  else if pyEndsWith o ".dot" || (pyEndsWith o ".gv" && hasattrToDot d) then
    match diagToDot d with
    | .ok s => ([.openWrite o, .writeStr o s], none)
    | .error e => ([.openWrite o], some e)
  else
    ([.openWrite o], some (.notImplementedError ("Don\x27t know how to write to file " ++ o)))

/-- Whether a body line is a state-node declaration. -/
def isNodeLine : TexLine → Bool
  | .nodeC _ _ _ _ _ => true
  | .nodeR _ _ _ _ _ => true
  | _ => false

/-- Whether a body line is the start-marker node declaration. -/
def isStartNodeLine : TexLine → Bool
  | .startNodeC _ _ => true
  | .startNodeR _ _ => true
  | _ => false

/-- Whether a body line is the start-marker arrow. -/
def isStartArrowLine : TexLine → Bool
  | .startArrow _ => true
  | _ => false

/-- Normalization succeeds, elementwise, on any list of good-arity raw
    edges. -/
lemma normalizeEdges_ok {α : Type} [Inhabited α] (edges : List (RawEdge α))
    (h : ∀ e ∈ edges, isBadArity e = false) :
    normalizeEdges edges = .ok (edges.map normOk) := by
  induction edges with
  | nil => rfl
  | cons e es ih =>
    have he : isBadArity e = false := h e (List.mem_cons_self e es)
    have hes : ∀ x ∈ es, isBadArity x = false :=
      fun x hx => h x (List.mem_cons_of_mem e hx)
    cases e with
    | pair s d => simp [normalizeEdges, normalizeEdge, ih hes, normOk]
    | triple s d l => simp [normalizeEdges, normalizeEdge, ih hes, normOk]
    | badArity n => simp [isBadArity] at he

/-- What the filter of the node loop looks like: provided the per-node line
    never matches p and the start block filters to g i, the whole loop
    filters to g at the start index exactly when q_0 falls in the emitted
    index range, and to nothing otherwise. -/
lemma filter_startBlockAux (p : TexLine → Bool) (node : ℕ → String → TexLine)
    (st : ℕ → List TexLine) (g : ℕ → List TexLine) (q0 : ℤ)
    (hnode : ∀ i l, p (node i l) = false) (hst : ∀ i, (st i).filter p = g i)
    (labels : List String) : ∀ k : ℕ,
    (startBlockAux node st q0 k labels).filter p =
      if (k : ℤ) ≤ q0 ∧ q0 < (k : ℤ) + (labels.length : ℤ) then g q0.toNat
      else [] := by
  induction labels with
  | nil =>
    intro k
    have h : ¬((k : ℤ) ≤ q0 ∧ q0 < (k : ℤ) + (([] : List String).length : ℤ)) := by
      simp only [List.length_nil, Nat.cast_zero, add_zero]
      omega
    rw [if_neg h]
    rfl
  | cons l ls ih =>
    intro k
    rw [startBlockAux, List.filter_append, List.filter_cons, hnode k l,
      if_neg Bool.false_ne_true]
    by_cases hk : (k : ℤ) = q0
    · rw [if_pos hk, hst k, ih (k + 1)]
      have h1 : ¬(((k + 1 : ℕ) : ℤ) ≤ q0 ∧
          q0 < ((k + 1 : ℕ) : ℤ) + (ls.length : ℤ)) := by
        push_cast
        omega
      have hkn : q0.toNat = k := by omega
      have h2 : (k : ℤ) ≤ q0 ∧ q0 < (k : ℤ) + ((l :: ls).length : ℤ) := by
        simp only [List.length_cons]
        push_cast
        omega
      rw [if_neg h1, List.append_nil, hkn, if_pos h2]
    · rw [if_neg hk, ih (k + 1)]
      simp only [List.filter_nil, List.nil_append, List.length_cons]
      have hiff : (((k + 1 : ℕ) : ℤ) ≤ q0 ∧
          q0 < ((k + 1 : ℕ) : ℤ) + (ls.length : ℤ)) ↔
          ((k : ℤ) ≤ q0 ∧ q0 < (k : ℤ) + ((ls.length + 1 : ℕ) : ℤ)) := by
        push_cast
        omega
      exact if_congr hiff rfl rfl

/-- The node loop, filtered, started at index 0. -/
lemma filter_startBlock (p : TexLine → Bool) (node : ℕ → String → TexLine)
    (st : ℕ → List TexLine) (g : ℕ → List TexLine) (q0 : ℤ)
    (hnode : ∀ i l, p (node i l) = false) (hst : ∀ i, (st i).filter p = g i)
    (labels : List String) :
    (startBlock node st q0 labels).filter p =
      if 0 ≤ q0 ∧ q0 < (labels.length : ℤ) then g q0.toNat else [] := by
  rw [startBlock, filter_startBlockAux p node st g q0 hnode hst labels 0]
  norm_num

/-- Edge lines never match a predicate that is false on straight connectors
    and self-loops. -/
lemma filter_edgeLines_nil (p : TexLine → Bool)
    (h : ∀ e : Edge ℤ, p (edgeLine e) = false) (es : List (Edge ℤ)) :
    (es.map edgeLine).filter p = [] := by
  induction es with
  | nil => rfl
  | cons e es ih =>
    rw [List.map_cons, List.filter_cons, h e, if_neg Bool.false_ne_true, ih]

/-- On a good-arity raw edge, the claimed endpoint bound is the bound on the
    normalized edge's endpoints. -/
lemma endpointsLT_normOk (e : RawEdge ℤ) (N : ℤ) (he : isBadArity e = false) :
    e.endpointsLT N ↔ ((normOk e).src < N ∧ (normOk e).dst < N) := by
  cases e with
  | pair s d => simp [RawEdge.endpointsLT, normOk]
  | triple s d l => simp [RawEdge.endpointsLT, normOk]
  | badArity n => simp [isBadArity] at he

/-- A successfully constructed FSM carries the given labels, start state and
    accept states, and its start state passed the upper-bound check. -/
lemma mkFSM_ok_inv (edges : List (RawEdge ℤ)) (labels : List String) (q0 : ℤ)
    (accepts : List ℤ) (f : FSM)
    (h : mkFSM edges labels q0 accepts = .ok f) :
    f.state_labels = labels ∧ f.q_0 = q0 ∧ f.q_accept = accepts ∧
      q0 < (labels.length : ℤ) := by
  unfold mkFSM at h
  cases hn : normalizeEdges edges with
  | error e => rw [hn] at h; cases h
  | ok es0 =>
    rw [hn] at h
    simp only at h
    by_cases hq : (labels.length : ℤ) ≤ q0
    · rw [if_pos hq] at h; cases h
    · rw [if_neg hq] at h
      cases hacc : accepts.find? (fun q => decide ((labels.length : ℤ) ≤ q)) with
      | some q => rw [hacc] at h; cases h
      | none =>
        rw [hacc] at h
        simp only at h
        cases hedge : es0.dedup.find?
            (fun e => decide ((labels.length : ℤ) ≤ e.src) ||
              decide ((labels.length : ℤ) ≤ e.dst)) with
        | some e => rw [hedge] at h; cases h
        | none =>
          rw [hedge] at h
          simp only at h
          cases h
          exact ⟨rfl, rfl, rfl, by omega⟩

/-- Claim C1 counterexample: with one state label and startState -1 the
    condition claimed by the spec, 0 ≤ startState fails, yet construction succeeds (and
    hands back a fully built object): the code never checks the lower
    bound. -/
theorem fsm_construction_c1_counterexample :
    exOk (mkFSM [] ["a"] (-1) []) = true ∧ ¬(0 ≤ (-1 : ℤ)) :=
  ⟨by decide, by decide⟩

/-- Claim C1 (amended): constructing an FSM succeeds iff startState is less
    than the number of labels, every accept state is below it, and both
    endpoints of every edge are below it — with no lower-bound checks, so
    negative indices pass.  (On failure an exception is raised and no FSM
    value is produced; by C10 the edge-endpoint failure is not always the
    descriptive ValueError.) -/
theorem fsm_construction_iff (edges : List (RawEdge ℤ)) (labels : List String)
    (q0 : ℤ) (accepts : List ℤ)
    (h : ∀ e ∈ edges, isBadArity e = false) :
    exOk (mkFSM edges labels q0 accepts) = true ↔
      (q0 < (labels.length : ℤ) ∧ (∀ q ∈ accepts, q < (labels.length : ℤ)) ∧
        ∀ e ∈ edges, e.endpointsLT (labels.length : ℤ)) := by
  simp only [mkFSM, normalizeEdges_ok edges h]
  by_cases hq : (labels.length : ℤ) ≤ q0
  · rw [if_pos hq]
    simp only [exOk]
    constructor
    · intro hfalse
      exact Bool.noConfusion hfalse
    · rintro ⟨h1, -, -⟩
      omega
  · rw [if_neg hq]
    cases hacc : accepts.find? (fun q => decide ((labels.length : ℤ) ≤ q)) with
    | some q =>
      simp only [exOk]
      constructor
      · intro hfalse
        exact Bool.noConfusion hfalse
      · rintro ⟨-, hall, -⟩
        have hm := List.mem_of_find?_eq_some hacc
        have hp := List.find?_some hacc
        simp only [decide_eq_true_eq] at hp
        exact absurd (hall q hm) (by omega)
    | none =>
      have haccAll : ∀ q ∈ accepts, q < (labels.length : ℤ) := by
        intro q hqmem
        have := List.find?_eq_none.mp hacc q hqmem
        simp only [decide_eq_true_eq] at this
        omega
      cases hedge : (List.map normOk edges).dedup.find?
          (fun e => decide ((labels.length : ℤ) ≤ e.src) ||
            decide ((labels.length : ℤ) ≤ e.dst)) with
      | some e =>
        simp only [exOk]
        constructor
        · intro hfalse
          exact Bool.noConfusion hfalse
        · rintro ⟨-, -, hedges⟩
          have hm := List.mem_of_find?_eq_some hedge
          have hp := List.find?_some hedge
          rw [List.mem_dedup] at hm
          rcases List.mem_map.mp hm with ⟨raw, hraw, rfl⟩
          have hlt := (endpointsLT_normOk raw _ (h raw hraw)).mp (hedges raw hraw)
          simp only [Bool.or_eq_true, decide_eq_true_eq] at hp
          omega
      | none =>
        simp only [exOk]
        constructor
        · intro _
          refine ⟨by omega, haccAll, ?_⟩
          intro e he
          rw [endpointsLT_normOk e _ (h e he)]
          have := List.find?_eq_none.mp hedge (normOk e)
            (List.mem_dedup.mpr (List.mem_map.mpr ⟨e, he, rfl⟩))
          simp only [Bool.or_eq_true, decide_eq_true_eq] at this
          push_neg at this
          omega
        · intro _
          trivial

/-- Claim C1 witness: a fully in-range FSM constructs successfully. -/
theorem fsm_construction_iff_witness :
    exOk (mkFSM [RawEdge.pair 0 1] ["a", "b"] 0 [1]) = true :=
  (fsm_construction_iff [RawEdge.pair 0 1] ["a", "b"] 0 [1]
    (by decide)).mpr (by decide)

/-- Claim C10: when validation rejects an edge endpoint, the raised error is
    built from the leftover accept-loop variable q, not from the offending
    endpoint: a NameError (undefined variable q) if q_accept was empty, else
    a ValueError whose message interpolates the last accept state. -/
theorem fsm_edge_error_uses_leftover_q (edges : List (RawEdge ℤ))
    (labels : List String) (q0 : ℤ) (accepts : List ℤ)
    (h : ∀ e ∈ edges, isBadArity e = false)
    (hq : q0 < (labels.length : ℤ))
    (hacc : ∀ q ∈ accepts, q < (labels.length : ℤ))
    (hbad : ∃ e ∈ edges, ¬ e.endpointsLT (labels.length : ℤ)) :
    mkFSM edges labels q0 accepts = .error
      (match accepts.getLast? with
        | none => PyError.nameError "q"
        | some q => PyError.valueError (edgeMsg labels.length q)) := by
  simp only [mkFSM, normalizeEdges_ok edges h]
  rw [if_neg (by omega : ¬((labels.length : ℤ) ≤ q0))]
  have haccn : accepts.find? (fun q => decide ((labels.length : ℤ) ≤ q)) = none := by
    rw [List.find?_eq_none]
    intro q hqm
    simp only [decide_eq_true_eq]
    have := hacc q hqm
    omega
  simp only [haccn]
  rcases hbad with ⟨e, he, hlt⟩
  cases hedge : (List.map normOk edges).dedup.find?
      (fun e => decide ((labels.length : ℤ) ≤ e.src) ||
        decide ((labels.length : ℤ) ≤ e.dst)) with
  | some x => rfl
  | none =>
    exfalso
    have := List.find?_eq_none.mp hedge (normOk e)
      (List.mem_dedup.mpr (List.mem_map.mpr ⟨e, he, rfl⟩))
    simp only [Bool.or_eq_true, decide_eq_true_eq] at this
    push_neg at this
    rw [endpointsLT_normOk e _ (h e he)] at hlt
    omega

/-- Claim C10 witness: an FSM with one label, start state 0, no accept states
    and the out-of-range edge (5, 0) is rejected with NameError, not with the
    descriptive ValueError. -/
theorem fsm_edge_error_witness :
    mkFSM [RawEdge.pair 5 0] ["a"] 0 [] = .error (.nameError "q") :=
  fsm_edge_error_uses_leftover_q [RawEdge.pair 5 0] ["a"] 0 []
    (by decide) (by decide) (by decide) (by decide)

/-- Claim C2: evaluating the code at the failing input.  The Digraph built
    from the unlabeled raw edge ("x", "y") stores the normalized edge
    ("x", "y", None), and to_dot then emits the line
    `x -> y [label="None"];` — the label clause is not omitted, because
    `len(edge) == 3` holds of every normalized three-field Edge, and the
    f-string prints None as the text None. -/
theorem digraph_unlabeled_edge_label_none :
    mkDigraph [RawEdge.pair (.str "x") (.str "y")] =
      .ok ⟨[⟨.str "x", .str "y", none⟩]⟩ ∧
    Digraph.to_dot ⟨[⟨.str "x", .str "y", none⟩]⟩ =
      "digraph \x7b\n    node [texmode=\"math\"];\n    x -> y [label=\"None\"];\n\x7d" :=
  ⟨rfl, rfl⟩

/-- Claim C8: toGraphText returns the empty string iff the digraph has no
    edges; with at least one edge it is the full DOT document: the
    `digraph \x7b` header, the node-attribute default line, one indented
    `;`-terminated line per edge, and the closing brace. -/
theorem digraph_to_dot_structure (g : Digraph) :
    (Digraph.to_dot g = "" ↔ g.edges = []) ∧
    (g.edges ≠ [] →
      Digraph.to_dot g =
        "digraph \x7b\n" ++ "    node [texmode=\"math\"];\n"
          ++ String.join (g.edges.map
              (fun e => "    " ++ Digraph.edge_to_dot e ++ ";\n"))
          ++ "\x7d") := by
  rcases hg : g.edges with - | ⟨e, es⟩
  · simp only [Digraph.to_dot, hg]
    simp
  · simp only [Digraph.to_dot, hg]
    rw [if_neg (by simp)]
    have hpos : 0 < ("digraph \x7b\n" : String).length := by decide
    constructor
    · constructor
      · intro hdot
        exfalso
        have hlen := congrArg String.length hdot
        simp only [String.length_append] at hlen
        have h0 : ("" : String).length = 0 := rfl
        rw [h0] at hlen
        omega
      · intro hcons
        cases hcons
    · intro _
      rfl

/-- Claim C8 witness: a one-edge digraph renders to the full document. -/
theorem digraph_to_dot_structure_witness :
    Digraph.to_dot ⟨[⟨.str "a", .str "b", some "t"⟩]⟩ =
      "digraph \x7b\n    node [texmode=\"math\"];\n    a -> b [label=\"t\"];\n\x7d" :=
  (digraph_to_dot_structure ⟨[⟨.str "a", .str "b", some "t"⟩]⟩).2 (by decide)

/-- Claim C7: Digraph.to_tex fails with ValueError (what the spec calls
    UnsupportedShapeError) whenever a layout shape is supplied, without
    invoking the external converter — the result is identical under any two
    converters; with no shape it returns the output of the converter on the
    toGraphText() string verbatim, propagating converter failures
    unchanged. -/
theorem digraph_to_tex_dispatch (conv conv2 : String → Except PyError String)
    (g : Digraph) (shape : Option FSMShape) :
    (shape ≠ none →
      Digraph.to_tex conv g shape =
        .error (.valueError "Cannot display a digraph using a FSMShape.") ∧
      Digraph.to_tex conv g shape = Digraph.to_tex conv2 g shape) ∧
    Digraph.to_tex conv g none = conv (Digraph.to_dot g) := by
  constructor
  · intro hs
    cases shape with
    | none => exact absurd rfl hs
    | some s => exact ⟨rfl, rfl⟩
  · rfl

/-- Claim C7 witness: a circle shape passed to a digraph is rejected even
    when the converter itself would fail. -/
theorem digraph_to_tex_dispatch_witness :
    Digraph.to_tex (fun s => Except.error (.valueError s)) ⟨[]⟩
        (some (FSMShape.circle 0)) =
      .error (.valueError "Cannot display a digraph using a FSMShape.") :=
  ((digraph_to_tex_dispatch (fun s => Except.error (.valueError s))
    (fun _ => Except.ok "") ⟨[]⟩ (some (FSMShape.circle 0))).1 (by decide)).1

/-- Claim C3 counterexample: writing a digraph to "out.txt" does raise the
    unsupported-output error, but the event trace shows the target file was
    opened for writing first — contradicting "before any file is opened for
    writing, so no partial or empty file is left behind". -/
theorem rshift_c3_counterexample :
    (rshift (fun _ => "") (fun _ => "") (fun s => Except.ok s)
        (.digraph ⟨[]⟩) "out.txt").2 =
      some (.notImplementedError "Don\x27t know how to write to file out.txt") ∧
    FsEvent.openWrite "out.txt" ∈
      (rshift (fun _ => "") (fun _ => "") (fun s => Except.ok s)
        (.digraph ⟨[]⟩) "out.txt").1 := by
  constructor
  · rfl
  · decide

/-- Claim C3 (amended): for an output path whose lowercased name has an
    unrecognized extension — not .tex, not .dot, and .gv only without a
    to_dot producer — the write operation raises NotImplementedError (the
    UnsupportedOutputError of the spec); for .dot on a diagram lacking to_dot it
    raises AttributeError; but in both cases the trace shows the target file
    already opened for writing (created/truncated) before the failure, so an
    empty file is left behind. -/
theorem rshift_unrecognized_opens_first (fmt : ℝ → String) (fmtI : ℤ → String)
    (conv : String → Except PyError String) (d : DiagramVal) (other : String) :
    (¬ pyEndsWith (pyLower other) ".tex" → ¬ pyEndsWith (pyLower other) ".dot" →
      ¬ (pyEndsWith (pyLower other) ".gv" ∧ hasattrToDot d = true) →
      rshift fmt fmtI conv d other =
        ([.openWrite (pyLower other)],
         some (.notImplementedError
           ("Don\x27t know how to write to file " ++ pyLower other)))) ∧
    (¬ pyEndsWith (pyLower other) ".tex" → pyEndsWith (pyLower other) ".dot" →
      hasattrToDot d = false →
      rshift fmt fmtI conv d other =
        ([.openWrite (pyLower other)], some (.attributeError "to_dot"))) := by
  constructor
  · intro h1 h2 h3
    simp only [rshift]
    rw [if_neg h1, if_neg (by
      simp only [Bool.or_eq_true, Bool.and_eq_true]
      push_neg
      exact ⟨h2, fun hgv hd => h3 ⟨hgv, hd⟩⟩)]
  · intro h1 h2 h3
    cases d with
    | fsm f =>
      simp only [rshift]
      rw [if_neg h1, if_pos (by simp only [Bool.or_eq_true]; exact Or.inl h2)]
      rfl
    | digraph g =>
      simp only [hasattrToDot] at h3
      cases h3

/-- A shape satisfying its constructor invariant always renders: the body is
    the node lines followed by one line per edge. -/
lemma to_tex_ok (f : FSM) (sh : FSMShape) (hsh : shapeOK sh = true) :
    FSM.to_tex f (some sh) =
      .ok (fsmNodeLines f sh ++ f.edges.map edgeLine) := by
  cases sh with
  | circle r => rfl
  | rect cols spacing =>
    simp only [shapeOK, Bool.and_eq_true, decide_eq_true_eq] at hsh
    simp only [FSM.to_tex, fsmNodeLines]
    rw [if_neg (by rintro ⟨hc, -⟩; omega)]

/-- An edge renders as a connector, never as a node declaration. -/
lemma isNodeLine_edgeLine (e : Edge ℤ) : isNodeLine (edgeLine e) = false := by
  unfold edgeLine
  split <;> rfl

/-- An edge renders as a connector, never as the start-marker node. -/
lemma isStartNodeLine_edgeLine (e : Edge ℤ) :
    isStartNodeLine (edgeLine e) = false := by
  unfold edgeLine
  split <;> rfl

/-- An edge renders as a connector, never as the start-marker arrow. -/
lemma isStartArrowLine_edgeLine (e : Edge ℤ) :
    isStartArrowLine (edgeLine e) = false := by
  unfold edgeLine
  split <;> rfl

/-- The node loop emits the start-marker node once when 0 ≤ q_0 < the
    number of labels, and not at all otherwise, under either layout. -/
lemma countP_startNode_fsmNodeLines (f : FSM) (sh : FSMShape) :
    (fsmNodeLines f sh).countP isStartNodeLine =
      if 0 ≤ f.q_0 ∧ f.q_0 < (f.state_labels.length : ℤ) then 1 else 0 := by
  cases sh with
  | circle r =>
    rw [fsmNodeLines, circleLines, List.countP_eq_length_filter,
      filter_startBlock isStartNodeLine
        (circleNode f.state_labels f.q_accept r) (circleStart f.state_labels r)
        (fun i => [TexLine.startNodeC (circleX r f.state_labels.length i)
          (circleY r f.state_labels.length i
            + ((effRadius r f.state_labels.length).fdiv 2 : ℤ))])
        f.q_0 (fun i l => rfl) (fun i => rfl) f.state_labels]
    split <;> rfl
  | rect cols spacing =>
    rw [fsmNodeLines, rectLines, List.countP_eq_length_filter,
      filter_startBlock isStartNodeLine
        (rectNode f.q_accept cols spacing) (rectStart cols spacing)
        (fun i => [TexLine.startNodeR (((i : ℤ).fmod cols) * spacing)
          (-(((i : ℤ).fdiv cols) * spacing) + spacing.fdiv 2)])
        f.q_0 (fun i l => rfl) (fun i => rfl) f.state_labels]
    split <;> rfl

/-- The node loop emits the start arrow exactly at the node whose index is
    q_0, when 0 ≤ q_0 < the number of labels, under either layout. -/
lemma filter_startArrow_fsmNodeLines (f : FSM) (sh : FSMShape) :
    (fsmNodeLines f sh).filter isStartArrowLine =
      if 0 ≤ f.q_0 ∧ f.q_0 < (f.state_labels.length : ℤ)
      then [TexLine.startArrow f.q_0.toNat] else [] := by
  cases sh with
  | circle r =>
    rw [fsmNodeLines, circleLines,
      filter_startBlock isStartArrowLine
        (circleNode f.state_labels f.q_accept r) (circleStart f.state_labels r)
        (fun i => [TexLine.startArrow i])
        f.q_0 (fun i l => rfl) (fun i => rfl) f.state_labels]
  | rect cols spacing =>
    rw [fsmNodeLines, rectLines,
      filter_startBlock isStartArrowLine
        (rectNode f.q_accept cols spacing) (rectStart cols spacing)
        (fun i => [TexLine.startArrow i])
        f.q_0 (fun i l => rfl) (fun i => rfl) f.state_labels]

/-- Node 0 of the circular layout sits at x = R·sin(0) = 0. -/
lemma circleX_zero (r : ℤ) (n : ℕ) : circleX r n 0 = 0 := by
  simp [circleX]

/-- Node 0 of the circular layout sits at y = R·cos(0) = R. -/
lemma circleY_zero (r : ℤ) (n : ℕ) : circleY r n 0 = (effRadius r n : ℝ) := by
  simp [circleY]

/-- Claim C3 witness: an uppercase unrecognized path is lowercased, opened,
    and only then rejected. -/
theorem rshift_unrecognized_witness :
    rshift (fun _ => "") (fun _ => "") (fun s => Except.ok s)
        (.digraph ⟨[]⟩) "A.TXT" =
      ([.openWrite "a.txt"],
       some (.notImplementedError "Don\x27t know how to write to file a.txt")) :=
  (rshift_unrecognized_opens_first (fun _ => "") (fun _ => "")
    (fun s => Except.ok s) (.digraph ⟨[]⟩) "A.TXT").1 (by decide) (by decide)
    (by decide)

/-- Claim C4 counterexample: the zero-label FSM (constructible, since the
    start state -1 passes validation) rendered with a Circular shape is NOT
    rejected with a ValidationError: to_tex succeeds, returning a document
    with an empty tikzpicture body. -/
theorem circle_zero_nodes_counterexample :
    mkFSM [] [] (-1) [] = .ok ⟨[], [], -1, []⟩ ∧
    FSM.to_tex ⟨[], [], -1, []⟩ (some (FSMShape.circle 0)) = .ok [] :=
  ⟨rfl, rfl⟩

/-- Claim C4 (amended): rendering an FSM with zero state labels under a
    Circular shape is not rejected: it succeeds, the per-node loop emits
    nothing — so the division in the angle formula never executes and no
    NaN/Inf coordinate can arise — and the body consists solely of edge
    connector lines, with no node and no start-marker lines. -/
theorem circle_zero_nodes_renders (edges : List (RawEdge ℤ)) (q0 : ℤ)
    (accepts : List ℤ) (f : FSM) (r : ℤ)
    (hok : mkFSM edges [] q0 accepts = .ok f) :
    FSM.to_tex f (some (FSMShape.circle r)) = .ok (f.edges.map edgeLine) ∧
    (f.edges.map edgeLine).filter isNodeLine = [] ∧
    (f.edges.map edgeLine).filter isStartNodeLine = [] := by
  obtain ⟨hlab, -, -, -⟩ := mkFSM_ok_inv edges [] q0 accepts f hok
  refine ⟨?_, ?_, ?_⟩
  · simp [FSM.to_tex, circleLines, startBlock, startBlockAux, hlab]
  · exact filter_edgeLines_nil isNodeLine isNodeLine_edgeLine f.edges
  · exact filter_edgeLines_nil isStartNodeLine isStartNodeLine_edgeLine f.edges

/-- Claim C4 witness: a constructible zero-label FSM (negative indices pass
    validation) renders its edges and nothing else. -/
theorem circle_zero_nodes_witness :
    FSM.to_tex ⟨[⟨-1, -2, none⟩], [], -1, []⟩ (some (FSMShape.circle 5)) =
      .ok ((⟨[⟨-1, -2, none⟩], [], -1, []⟩ : FSM).edges.map edgeLine) ∧
    ((⟨[⟨-1, -2, none⟩], [], -1, []⟩ : FSM).edges.map edgeLine).filter
      isNodeLine = [] ∧
    ((⟨[⟨-1, -2, none⟩], [], -1, []⟩ : FSM).edges.map edgeLine).filter
      isStartNodeLine = [] :=
  circle_zero_nodes_renders [RawEdge.pair (-1) (-2)] (-1) [] _ 5 (by rfl)

/-- Claim C5 counterexample: the FSM with labels ["a"] and start state -1 is
    successfully constructed (validation has no lower bound) and renders
    under a Circular shape with ZERO start-marker nodes — the marker is not
    emitted exactly once. -/
theorem fsm_start_marker_counterexample :
    mkFSM [] ["a"] (-1) [] = .ok ⟨[], ["a"], -1, []⟩ ∧
    (FSM.to_tex ⟨[], ["a"], -1, []⟩ (some (FSMShape.circle 0))).map
        (fun ls => ls.countP isStartNodeLine) = .ok 0 :=
  ⟨rfl, rfl⟩

/-- Claim C5 (amended): for every successfully constructed FSM whose start
    state is additionally nonnegative, rendering with a known (validated)
    shape — Circular or Grid — emits the start-marker node exactly once and
    exactly one start arrow, at the node whose index equals q_0.  (Without
    the nonnegativity proviso the claim fails: a successfully constructed
    FSM may have a negative start state, and then no marker is emitted.) -/
theorem fsm_start_marker_once (edges : List (RawEdge ℤ))
    (labels : List String) (q0 : ℤ) (accepts : List ℤ) (f : FSM)
    (sh : FSMShape) (hok : mkFSM edges labels q0 accepts = .ok f)
    (hq : 0 ≤ q0) (hsh : shapeOK sh = true) :
    FSM.to_tex f (some sh) = .ok (fsmNodeLines f sh ++ f.edges.map edgeLine) ∧
    (fsmNodeLines f sh ++ f.edges.map edgeLine).countP isStartNodeLine = 1 ∧
    (fsmNodeLines f sh ++ f.edges.map edgeLine).filter isStartArrowLine =
      [TexLine.startArrow q0.toNat] := by
  obtain ⟨hlab, hq0, -, hlt⟩ := mkFSM_ok_inv edges labels q0 accepts f hok
  have hcond : 0 ≤ f.q_0 ∧ f.q_0 < (f.state_labels.length : ℤ) := by
    rw [hq0, hlab]
    exact ⟨hq, hlt⟩
  refine ⟨to_tex_ok f sh hsh, ?_, ?_⟩
  · rw [List.countP_append, countP_startNode_fsmNodeLines, if_pos hcond,
      List.countP_eq_length_filter,
      filter_edgeLines_nil isStartNodeLine isStartNodeLine_edgeLine f.edges]
    rfl
  · rw [List.filter_append, filter_startArrow_fsmNodeLines, if_pos hcond,
      filter_edgeLines_nil isStartArrowLine isStartArrowLine_edgeLine f.edges,
      List.append_nil, hq0]

/-- Claim C5 witness: a two-state FSM with start state 0 under a circular
    shape emits the start marker and arrow once, at node 0. -/
theorem fsm_start_marker_witness :
    FSM.to_tex ⟨[], ["a", "b"], 0, []⟩ (some (FSMShape.circle 5)) =
      .ok (fsmNodeLines ⟨[], ["a", "b"], 0, []⟩ (FSMShape.circle 5)
        ++ (⟨[], ["a", "b"], 0, []⟩ : FSM).edges.map edgeLine) ∧
    (fsmNodeLines ⟨[], ["a", "b"], 0, []⟩ (FSMShape.circle 5)
        ++ (⟨[], ["a", "b"], 0, []⟩ : FSM).edges.map edgeLine).countP
      isStartNodeLine = 1 ∧
    (fsmNodeLines ⟨[], ["a", "b"], 0, []⟩ (FSMShape.circle 5)
        ++ (⟨[], ["a", "b"], 0, []⟩ : FSM).edges.map edgeLine).filter
      isStartArrowLine = [TexLine.startArrow (0 : ℤ).toNat] :=
  fsm_start_marker_once [] ["a", "b"] 0 [] _ (FSMShape.circle 5) rfl
    (by decide) (by decide)

/-- Claim C6: every FSM edge with src = dst renders via the self-loop line
    (loop above the node) and never the straight connector, every edge with
    src ≠ dst renders via the straight connector carrying its label at the
    midway node and never the self-loop, and an absent or empty label renders
    as empty text inside the label braces, not as an omitted label node. -/
theorem fsm_edge_connector_cases (f : FSM) (sh : FSMShape) (fmt : ℝ → String)
    (fmtI : ℤ → String) (hsh : shapeOK sh = true) :
    FSM.to_tex f (some sh) = .ok (fsmNodeLines f sh ++ f.edges.map edgeLine) ∧
    (∀ e : Edge ℤ, e.src = e.dst →
      edgeLine e = .selfLoop e.src (pyLabelOr e.label)) ∧
    (∀ e : Edge ℤ, e.src ≠ e.dst →
      edgeLine e = .straight e.src e.dst (pyLabelOr e.label)) ∧
    (∀ s d : ℤ, renderLine fmt fmtI (.straight s d "") =
      "\\draw [->] (" ++ toString s ++ ") -- (" ++ toString d
        ++ ") node[midway] \x7b\x7d;") ∧
    (∀ s : ℤ, renderLine fmt fmtI (.selfLoop s "") =
      "\\draw (" ++ toString s ++ ") edge[loop above] node \x7b\x7d ("
        ++ toString s ++ ");") := by
  refine ⟨to_tex_ok f sh hsh, ?_, ?_, ?_, ?_⟩
  · intro e he
    simp [edgeLine, he]
  · intro e he
    simp [edgeLine, he]
  · intro s d
    simp only [renderLine]
    rw [String.append_empty, String.append_assoc]
    rfl
  · intro s
    simp only [renderLine]
    rw [String.append_empty,
      String.append_assoc ("\\draw (" ++ toString s)
        ") edge[loop above] node \x7b" "\x7d ("]
    rfl

/-- Claim C6 witness: the self-loop edge (0,0,"loop") takes the self-loop
    rendering path. -/
theorem fsm_edge_connector_witness :
    edgeLine ⟨0, 0, some "loop"⟩ = TexLine.selfLoop 0 "loop" :=
  (fsm_edge_connector_cases ⟨[⟨0, 0, some "loop"⟩], ["a"], 0, []⟩
    (FSMShape.circle 0) (fun _ => "") (fun _ => "") (by decide)).2.1
    ⟨0, 0, some "loop"⟩ rfl

/-- Claim C9: for every successfully constructed FSM with at least one state,
    rendered with a Circular shape of validated (hence nonnegative) radius r,
    the effective radius R equals shape.radius when positive and 10·N
    otherwise; the first emitted body line is node 0 at coordinates (0, R);
    and under the 2-decimal bp coordinate formatter — characterized by its
    action on exact integer values, which both coordinates of node 0 are —
    that line renders as `\node (0) at (0.00bp,R.00bp) [options] ($label$)`
    with braces around the label. -/
theorem circle_first_node_top (edges : List (RawEdge ℤ))
    (labels : List String) (q0 : ℤ) (accepts : List ℤ) (f : FSM) (r : ℤ)
    (fmt : ℝ → String) (fmtI : ℤ → String)
    (hok : mkFSM edges labels q0 accepts = .ok f) (hN : labels ≠ [])
    (hr : 0 ≤ r)
    (hfmt : ∀ n : ℤ, fmt ((n : ℤ) : ℝ) = toString n ++ ".00bp") :
    effRadius r labels.length =
      (if 0 < r then r else 10 * (labels.length : ℤ)) ∧
    (FSM.to_tex f (some (FSMShape.circle r))).map List.head? =
      .ok (some (TexLine.nodeC 0 0 ((effRadius r labels.length : ℤ) : ℝ)
        (nodeOptions accepts 0) labels.headI)) ∧
    renderLine fmt fmtI
        (TexLine.nodeC 0 0 ((effRadius r labels.length : ℤ) : ℝ)
          (nodeOptions accepts 0) labels.headI) =
      "\\node (0) at (0.00bp," ++ toString (effRadius r labels.length)
        ++ ".00bp) [" ++ nodeOptions accepts 0 ++ "] \x7b$" ++ labels.headI
        ++ "$\x7d;" := by
  obtain ⟨hlab, hq0, hacc, -⟩ := mkFSM_ok_inv edges labels q0 accepts f hok
  refine ⟨?_, ?_, ?_⟩
  · unfold effRadius
    by_cases h : r = 0
    · rw [if_neg (by omega), if_neg (by omega)]
    · rw [if_pos h, if_pos (by omega)]
  · cases labels with
    | nil => exact absurd rfl hN
    | cons l ls =>
      simp only [FSM.to_tex, hlab, hq0, hacc, circleLines, startBlock,
        startBlockAux, List.cons_append, Except.map, List.head?, circleNode,
        circleX_zero, circleY_zero, List.headI]
  · simp only [renderLine]
    rw [show toString (0 : ℕ) = "0" from rfl]
    rw [show (0 : ℝ) = ((0 : ℤ) : ℝ) by norm_num]
    rw [hfmt 0, hfmt (effRadius r labels.length)]
    rw [show toString (0 : ℤ) ++ ".00bp" = "0.00bp" from rfl]
    rw [show (((("\\node (" ++ "0") ++ ") at (") ++ "0.00bp") ++ ",")
      = ("\\node (0) at (0.00bp," : String) from rfl]
    rw [← String.append_assoc "\\node (0) at (0.00bp,"
      (toString (effRadius r labels.length)) ".00bp"]
    rw [String.append_assoc
      ("\\node (0) at (0.00bp," ++ toString (effRadius r labels.length))
      ".00bp" ") ["]
    rw [show ((".00bp" ++ ") [") : String) = ".00bp) [" from rfl]

/-- Claim C9 witness: one label, radius 20: the effective radius is 20 and
    node 0 renders at (0.00bp, 20.00bp). -/
theorem circle_first_node_top_witness :
    effRadius 20 1 = (if 0 < (20 : ℤ) then 20 else 10 * (1 : ℤ)) ∧
    (FSM.to_tex ⟨[], ["a"], 0, []⟩ (some (FSMShape.circle 20))).map
        List.head? =
      .ok (some (TexLine.nodeC 0 0 ((effRadius 20 1 : ℤ) : ℝ)
        "draw,circle" "a")) ∧
    renderLine intCoordFmt fmtInt2bp
        (TexLine.nodeC 0 0 ((effRadius 20 1 : ℤ) : ℝ) "draw,circle" "a") =
      "\\node (0) at (0.00bp," ++ toString (effRadius 20 1)
        ++ ".00bp) [" ++ "draw,circle" ++ "] \x7b$" ++ "a" ++ "$\x7d;" :=
  circle_first_node_top [] ["a"] 0 [] _ 20 intCoordFmt fmtInt2bp (by rfl)
    (by decide) (by decide)
    (fun n => by rw [intCoordFmt, Int.floor_intCast])

end GraphDSL
